import Mathlib

/-!
Verification of the DocReader front-end session, library and upgrade logic.

Shallow embedding of:
- `src/frontend/src/hooks/useAuth.js` (session state manager),
- `src/frontend/src/components/library/Library.jsx` (library browser),
- `src/frontend/src/components/auth/UpgradePrompt.jsx` (upgrade flow).

Remote calls are modelled by passing the (already resolved) HTTP outcome as an
explicit argument; browser `localStorage` is modelled as two fields of the
state record; `console.log` calls have no state effect and are dropped.
-/

/-- JS `remaining > 0 || remaining === -1`, the expression every chat-limit
setter in `useAuth.js` uses for `canChat`. -/
def canChatOf (remaining : Int) : Bool :=
  decide (remaining > 0) || decide (remaining = -1)

/-- The `chatLimits` record of `useAuth.js`. -/
structure ChatLimits where
  remaining : Int
  used : Int
  canChat : Bool
deriving DecidableEq, Repr

/-- The profile record the backend returns as `data.user`.  Only the fields
the front end reads are modelled: `email`, `google_id` and the optional
`chat_count` read on the login path. -/
structure UserInfo where
  email : String
  google_id : String
  chat_count : Option Int
deriving DecidableEq, Repr

/-- In-memory state of the `useAuth` hook plus the two persisted
`localStorage` entries (`auth_token`, `user_info`). `JSON.stringify`/parse of
the profile is modelled as the identity, so `storedUser` holds a `UserInfo`. -/
structure AuthState where
  token : Option String
  user : Option UserInfo
  isAuthenticated : Bool
  chatLimits : ChatLimits
  storedToken : Option String
  storedUser : Option UserInfo
deriving DecidableEq, Repr

/-- Outcome of a `fetch` call: `ok` with parsed JSON body, a non-ok HTTP
status, or a thrown network error. -/
inductive HttpResult (α : Type) where
  | ok : α → HttpResult α
  | error : Nat → HttpResult α
  | netError : HttpResult α
deriving DecidableEq, Repr

/-- Modelled from the spec: `LIMITS.FREE_CHAT_LIMIT` lives in
`src/frontend/src/utils/constants.js`, which is not part of this repository
fragment.  The spec calls it a "finite free allowance" and the UpgradePrompt
UI text states "3 free chats", so the operations below take the limit as an
explicit parameter and theorems assume it is positive. -/
def FREE_CHAT_LIMIT : Int := 3

/-- The initial `chatLimits` state of the hook, also the value `logout`
resets to: `{ remaining: LIMITS.FREE_CHAT_LIMIT, used: 0, canChat: true }`. -/
def initialChatLimits (freeLimit : Int) : ChatLimits :=
  { remaining := freeLimit, used := 0, canChat := true }

/-- Model of `logout` in `useAuth.js`: clears token, user and the two storage
entries, resets `chatLimits` to the unauthenticated default. -/
def logout (freeLimit : Int) (_s : AuthState) : AuthState :=
  { token := none
    user := none
    isAuthenticated := false
    chatLimits := initialChatLimits freeLimit
    storedToken := none
    storedUser := none }

/-- JS truthiness of an optional number: `undefined` and `0` are falsy. -/
def jsTruthyInt : Option Int → Bool
  | none => false
  | some n => decide (n ≠ 0)

/-- JS `a || b || 0` over optional numbers, as in
`data.user?.chat_count || data.chat_count || 0`. -/
def firstTruthy (a b : Option Int) : Int :=
  if jsTruthyInt a then a.getD 0
  else if jsTruthyInt b then b.getD 0
  else 0

/-- Parsed body of a successful `GOOGLE_LOGIN` response, with the fields
`handleGoogleLogin` reads. -/
structure LoginData where
  access_token : String
  user : UserInfo
  chat_count : Option Int
  remaining_chats : Int
deriving DecidableEq, Repr

/-- The success path of `handleGoogleLogin` (response ok, body parsed):
stores the token and user in memory and in storage and derives the new
`chatLimits` from `data.remaining_chats`. -/
def loginSuccess (data : LoginData) (s : AuthState) : AuthState :=
  let chatCount := firstTruthy data.user.chat_count data.chat_count
  { s with
    token := some data.access_token
    user := some data.user
    isAuthenticated := true
    chatLimits :=
      { remaining := data.remaining_chats
        used := chatCount
        canChat := canChatOf data.remaining_chats }
    storedToken := some data.access_token
    storedUser := some data.user }

/-- The failure path of `handleGoogleLogin` (non-ok response or thrown
error): the catch block calls `logout()`. -/
def loginFailure (freeLimit : Int) (s : AuthState) : AuthState :=
  logout freeLimit s

/-- Parsed body of a `USER_ME` response, with the fields `fetchUserStatus`
reads; each is optional because the code uses `??` fallbacks. -/
structure StatusData where
  user : Option UserInfo
  remaining_chats : Option Int
  remaining : Option Int
  chat_count : Option Int
  used : Option Int
deriving DecidableEq, Repr

/-- Model of `fetchUserStatus` in `useAuth.js`.  Without a token it returns at once.
On an ok response it stores `data.user` (when present) in memory and in
storage and sets `chatLimits` from
`data.remaining_chats ?? data.remaining ?? -1` and
`data.chat_count ?? data.used ?? 0`.  On a 401 it calls `logout()`; any
other non-ok status or thrown error only logs. -/
def fetchUserStatus (freeLimit : Int) (resp : HttpResult StatusData)
    (s : AuthState) : AuthState :=
  match s.token with
  | none => s
  | some _ =>
    match resp with
    | .ok data =>
      let s1 := match data.user with
        | some u => { s with user := some u, storedUser := some u }
        | none => s
      let remaining := (data.remaining_chats.orElse (fun _ => data.remaining)).getD (-1)
      let used := (data.chat_count.orElse (fun _ => data.used)).getD 0
      { s1 with
        chatLimits :=
          { remaining := remaining, used := used, canChat := canChatOf remaining } }
    | .error status => if status == 401 then logout freeLimit s else s
    | .netError => s

/-- Parsed body of a `CHAT_LIMITS` response.  The code reads only
`data.remaining_chats`; `chat_count`/`used` are carried to show they are
ignored. -/
structure LimitsData where
  remaining_chats : Int
  chat_count : Option Int
  used : Option Int
deriving DecidableEq, Repr

/-- Model of `checkChatLimits` in `useAuth.js`: returns the boolean allowance and the
new state.  Without a token, or on any non-ok status or thrown error, it
returns `false` and leaves the state untouched.  On an ok response it sets
`chatLimits` with `used := LIMITS.FREE_CHAT_LIMIT - data.remaining_chats`. -/
def checkChatLimits (freeLimit : Int) (resp : HttpResult LimitsData)
    (s : AuthState) : Bool × AuthState :=
  match s.token with
  | none => (false, s)
  | some _ =>
    match resp with
    | .ok data =>
      (canChatOf data.remaining_chats,
       { s with
         chatLimits :=
           { remaining := data.remaining_chats
             used := freeLimit - data.remaining_chats
             canChat := canChatOf data.remaining_chats } })
    | .error _ => (false, s)
    | .netError => (false, s)

/-- Model of `updateChatLimits(newRemaining, newUsed)` in `useAuth.js`. -/
def updateChatLimits (newRemaining newUsed : Int) (s : AuthState) : AuthState :=
  { s with
    chatLimits :=
      { remaining := newRemaining
        used := newUsed
        canChat := canChatOf newRemaining } }

/-- The spec's invariant on an entitlement snapshot:
`canChat == (remaining > 0 || remaining == -1)`. -/
def limitsInvariant (c : ChatLimits) : Prop :=
  c.canChat = canChatOf c.remaining

instance (c : ChatLimits) : Decidable (limitsInvariant c) := by
  unfold limitsInvariant; infer_instance

/-! ### Library browser (`Library.jsx`) -/

/-- Does `hay` start with `needle`?  Character lists, JS `startsWith`. -/
def swChars : List Char → List Char → Bool
  | _, [] => true
  | [], _ :: _ => false
  | a :: as, b :: bs => a == b && swChars as bs

/-- Does `hay` contain `needle` as a contiguous run?  Character lists,
the semantics of JS `String.prototype.includes`. -/
def subChars (needle : List Char) : List Char → Bool
  | [] => swChars [] needle
  | a :: t => swChars (a :: t) needle || subChars needle t

/-- JS `hay.includes(needle)` on strings. -/
def strIncludes (hay needle : String) : Bool :=
  subChars needle.toList hay.toList

/-- JS `s.toLowerCase()`, character by character. -/
def toLowerStr (s : String) : String :=
  String.mk (s.toList.map Char.toLower)

/-- A library catalog entry as served by the backend (spec section 3):
read-only, never mutated client-side. -/
structure Domain where
  id : String
  name : String
  description : String
  category : String
  file_count : String
  total_size_readable : String
  gdrive_folder_id : Option String
deriving DecidableEq, Repr

/-- The search predicate inside `filterDomains`:
`d.name.toLowerCase().includes(searchTerm.toLowerCase()) ||
 d.description.toLowerCase().includes(searchTerm.toLowerCase())`. -/
def matchesSearch (searchTerm : String) (d : Domain) : Bool :=
  strIncludes (toLowerStr d.name) (toLowerStr searchTerm) ||
  strIncludes (toLowerStr d.description) (toLowerStr searchTerm)

/-- Model of `filterDomains` in `Library.jsx` as a pure function of its inputs:
first the category filter (skipped when the selection is `"All"`), then the
search filter (skipped when `searchTerm` is falsy, i.e. empty). -/
def filterDomains (domains : List Domain)
    (searchTerm selectedCategory : String) : List Domain :=
  let filtered :=
    if selectedCategory ≠ "All" then
      domains.filter (fun d => d.category == selectedCategory)
    else domains
  if searchTerm = "" then filtered
  else filtered.filter (matchesSearch searchTerm)

/-- Model of `const isPremium = chatLimits?.remaining === -1` in `Library.jsx`
(optional chaining: an absent `chatLimits` gives `undefined === -1`,
i.e. `false`). -/
def isPremiumOf : Option ChatLimits → Bool
  | none => false
  | some c => c.remaining == -1

/-- Effects of `handleDomainClick(domain)` on the Library component. -/
structure ClickResult where
  upgradeOpened : Bool
  selectedDomain : Option Domain
  downloadModalOpen : Bool
deriving DecidableEq, Repr

/-- Model of `handleDomainClick` in `Library.jsx`: without premium it opens the
upgrade modal and returns; with premium it selects the domain and opens the
download modal.  `sel0`/`open0` are the component state before the click. -/
def handleDomainClick (isPremium : Bool) (d : Domain)
    (sel0 : Option Domain) (open0 : Bool) : ClickResult :=
  if !isPremium then
    { upgradeOpened := true, selectedDomain := sel0, downloadModalOpen := open0 }
  else
    { upgradeOpened := false, selectedDomain := some d, downloadModalOpen := true }

/-- The render guard of the download modal in `Library.jsx`:
`downloadModalOpen && selectedDomain && isPremium`. -/
def downloadModalRendered (open1 : Bool) (sel : Option Domain)
    (isPremium : Bool) : Bool :=
  open1 && sel.isSome && isPremium

/-- JS falsiness of the optional `gdrive_folder_id` string
(`if (!folderId)`): absent or empty counts as missing. -/
def jsFalsyStr : Option String → Bool
  | none => true
  | some s => s.isEmpty

/-- Effects of one `handleDownload(type)` call. -/
structure DownloadResult where
  alertMsg : Option String
  upgradeOpened : Bool
  modalClosed : Bool
  tracked : Option (String × String)
deriving DecidableEq, Repr

/-- A `handleDownload` run that changes nothing and emits nothing. -/
def noDownloadEffect : DownloadResult :=
  { alertMsg := none, upgradeOpened := false, modalClosed := false, tracked := none }

/-- Model of `handleDownload(type)` in `Library.jsx`.  `confirmed` is the user's
answer to `window.confirm`; `popupOk` is whether `window.open` returned a
usable window.  `trackDownload(id, type)` posts
`{ domain_id, download_type }`, recorded in `tracked`. -/
def handleDownload (selected : Option Domain) (isPremium : Bool)
    (ty : String) (confirmed popupOk : Bool) : DownloadResult :=
  match selected with
  | none => noDownloadEffect
  | some d =>
    if !isPremium then
      { noDownloadEffect with upgradeOpened := true, modalClosed := true }
    else if jsFalsyStr d.gdrive_folder_id then
      { noDownloadEffect with
        alertMsg := some ("Google Drive folder not found for " ++ d.name) }
    else if !confirmed then
      noDownloadEffect
    else if !popupOk then
      { noDownloadEffect with
        alertMsg := some "Popup blocked! Please allow popups for this site and try again." }
    else
      { noDownloadEffect with
        modalClosed := true
        tracked := some (d.id, ty) }

/-- Parsed body of a successful `/api/library/domains` response. -/
structure DomainsData where
  domains : List Domain
  categories : List String
deriving DecidableEq, Repr

/-- State of the Library component that `fetchDomains` touches. -/
structure LibraryState where
  domains : List Domain
  filteredDomains : List Domain
  categories : List String
  loading : Bool
deriving DecidableEq, Repr

/-- Model of `fetchDomains` in `Library.jsx`: on an ok response it replaces the
catalog, prepends `"All"` to the category list and resets the filtered list;
a non-ok response or thrown error is only logged (`finally` clears
`loading`).  The second component is the user-facing alert, which this
function never emits. -/
def fetchDomains (resp : HttpResult DomainsData) (s : LibraryState) :
    LibraryState × Option String :=
  match resp with
  | .ok data =>
    ({ s with
       domains := data.domains
       categories := "All" :: data.categories
       filteredDomains := data.domains
       loading := false }, none)
  | .error _ => ({ s with loading := false }, none)
  | .netError => ({ s with loading := false }, none)

/-! ### Upgrade flow (`UpgradePrompt.jsx`) -/

/-- Parsed body of the `/api/payment/verify-payment` response; the handler
only reads `status`. -/
structure VerifyData where
  status : Option String
deriving DecidableEq, Repr

/-- The fields of Razorpay's success callback argument that the handler
reads. -/
structure PaymentResponse where
  razorpay_order_id : String
  razorpay_payment_id : String
  razorpay_signature : String
deriving DecidableEq, Repr

/-- Effects of one run of the checkout success `handler`. -/
structure HandlerResult where
  alertMsg : Option String
  refreshInvoked : Bool
  closed : Bool
deriving DecidableEq, Repr

/-- The support-contact alert text of the handler's catch block. -/
def supportMsg (paymentId : String) : String :=
  "Payment received but verification failed. Contact support with Payment ID: "
    ++ paymentId

/-- The checkout success `handler` in `UpgradePrompt.jsx`.  `verify` is the
outcome of the verification call (`Except.error` for a thrown fetch/parse
error); `hasCallback` is whether the caller supplied `onUpgradeSuccess`.
A body whose `status` is not `"success"` throws, landing in the same catch
block as a network error. -/
def paymentHandler (hasCallback : Bool) (resp : PaymentResponse)
    (verify : Except Unit VerifyData) : HandlerResult :=
  match verify with
  | .error _ =>
    { alertMsg := some (supportMsg resp.razorpay_payment_id)
      refreshInvoked := false
      closed := false }
  | .ok v =>
    if v.status == some "success" then
      { alertMsg := some "Payment Successful! You now have unlimited chats!"
        refreshInvoked := hasCallback
        closed := true }
    else
      { alertMsg := some (supportMsg resp.razorpay_payment_id)
        refreshInvoked := false
        closed := false }

/-! ### Concrete sample data used by witnesses and counterexamples -/

/-- A sample profile. -/
def sampleUser : UserInfo :=
  { email := "u@example.com", google_id := "g-1", chat_count := some 1 }

/-- A sample authenticated session satisfying the chat-limit invariant. -/
def sampleAuth : AuthState :=
  { token := some "tok"
    user := some sampleUser
    isAuthenticated := true
    chatLimits := { remaining := 3, used := 0, canChat := true }
    storedToken := some "tok"
    storedUser := some sampleUser }

/-- The first catalog entry of the spec scenario. -/
def healthCensus : Domain :=
  { id := "d1", name := "Health Census", description := "census data"
    category := "Social", file_count := "10 files"
    total_size_readable := "1 GB", gdrive_folder_id := some "folder1" }

/-- The second catalog entry of the spec scenario. -/
def roadNetwork : Domain :=
  { id := "d2", name := "Road Network", description := "road maps"
    category := "Infrastructure", file_count := "5 files"
    total_size_readable := "2 GB", gdrive_folder_id := some "folder2" }

/-- A catalog entry whose Drive folder link is absent. -/
def noDriveDomain : Domain :=
  { id := "d3", name := "Orphan", description := "no folder"
    category := "Social", file_count := "1 file"
    total_size_readable := "1 MB", gdrive_folder_id := none }

/-- A sample Razorpay success-callback payload. -/
def samplePayment : PaymentResponse :=
  { razorpay_order_id := "order_1"
    razorpay_payment_id := "pay_123"
    razorpay_signature := "sig" }

/-! ### Helper lemmas -/

/-- Every character list starts with itself. -/
theorem swChars_refl (l : List Char) : swChars l l = true := by
  induction l with
  | nil => rfl
  | cons a t ih => simp [swChars, ih]

/-- A list is a contiguous run of any list extending it on the left. -/
theorem subChars_append (pre l : List Char) : subChars l (pre ++ l) = true := by
  induction pre with
  | nil =>
    cases l with
    | nil => rfl
    | cons a t => simp [subChars, swChars_refl]
  | cons a pre ih => simp [subChars, ih]

/-- The empty needle is found in every haystack. -/
theorem subChars_nil (hay : List Char) : subChars [] hay = true := by
  cases hay <;> simp [subChars, swChars]

/-- JS `(pre + s).includes(s)` always holds. -/
theorem strIncludes_append_right (pre s : String) :
    strIncludes (pre ++ s) s = true := by
  obtain ⟨a⟩ := pre
  obtain ⟨b⟩ := s
  simpa [strIncludes, String.toList] using subChars_append a b

/-- An empty search term matches every domain. -/
theorem matchesSearch_empty (d : Domain) : matchesSearch "" d = true := by
  have h : toLowerStr "" = "" := rfl
  simp [matchesSearch, h, strIncludes, subChars_nil]

/-- The two sequential filters of `filterDomains` collapse to one filter by
the conjunction of the category test and the search test. -/
theorem filterDomains_eq (L : List Domain) (t c : String) :
    filterDomains L t c =
      L.filter (fun d => (c == "All" || d.category == c) && matchesSearch t d) := by
  unfold filterDomains
  by_cases hc : c = "All"
  · subst hc
    simp only [ne_eq, not_true_eq_false, if_false, if_neg]
    by_cases ht : t = ""
    · subst ht
      simp [matchesSearch_empty]
    · simp [ht]
  · rw [if_pos hc]
    have hc' : (c == "All") = false := by
      simpa [beq_iff_eq] using hc
    by_cases ht : t = ""
    · subst ht
      rw [if_pos rfl]
      apply List.filter_congr
      intro d _
      simp [hc', matchesSearch_empty]
    · rw [if_neg ht, List.filter_filter]
      apply List.filter_congr
      intro d _
      simp [hc', Bool.and_comm]

/-! ### Claims -/

/-- C1: every operation that sets the `chatLimits` snapshot — the initial
state, the login success path, `fetchUserStatus`, `checkChatLimits`,
`updateChatLimits` (for every pair of arguments), and `logout` — yields a
snapshot with `canChat == (remaining > 0 || remaining == -1)`; operations
that may leave the snapshot untouched preserve the invariant.  The free
limit is assumed positive (spec: a finite free allowance). -/
theorem chatLimits_invariant_all_setters (freeLimit : Int)
    (hL : 0 < freeLimit) :
    limitsInvariant (initialChatLimits freeLimit)
    ∧ (∀ (data : LoginData) (s : AuthState),
        limitsInvariant (loginSuccess data s).chatLimits)
    ∧ (∀ (resp : HttpResult StatusData) (s : AuthState),
        limitsInvariant s.chatLimits →
        limitsInvariant (fetchUserStatus freeLimit resp s).chatLimits)
    ∧ (∀ (resp : HttpResult LimitsData) (s : AuthState),
        limitsInvariant s.chatLimits →
        limitsInvariant ((checkChatLimits freeLimit resp s).2).chatLimits)
    ∧ (∀ (newRemaining newUsed : Int) (s : AuthState),
        limitsInvariant (updateChatLimits newRemaining newUsed s).chatLimits)
    ∧ (∀ s : AuthState, limitsInvariant (logout freeLimit s).chatLimits) := by
  have hinit : limitsInvariant (initialChatLimits freeLimit) := by
    simp [limitsInvariant, initialChatLimits, canChatOf, hL]
  refine ⟨hinit, ?_, ?_, ?_, ?_, ?_⟩
  · intro data s
    simp [limitsInvariant, loginSuccess]
  · intro resp s hs
    cases htok : s.token with
    | none => simpa [fetchUserStatus, htok] using hs
    | some t =>
      cases resp with
      | ok data =>
        cases hu : data.user <;>
          simp [fetchUserStatus, htok, hu, limitsInvariant]
      | error status =>
        by_cases h4 : status == 401
        · simpa [fetchUserStatus, htok, h4, logout] using hinit
        · simpa [fetchUserStatus, htok, h4] using hs
      | netError => simpa [fetchUserStatus, htok] using hs
  · intro resp s hs
    cases htok : s.token with
    | none => simpa [checkChatLimits, htok] using hs
    | some t =>
      cases resp with
      | ok data => simp [checkChatLimits, htok, limitsInvariant]
      | error status => simpa [checkChatLimits, htok] using hs
      | netError => simpa [checkChatLimits, htok] using hs
  · intro newRemaining newUsed s
    simp [limitsInvariant, updateChatLimits]
  · intro s
    simpa [logout] using hinit

/-- C1 witness: the invariant theorem applied at the concrete free limit 3
and concrete states. -/
theorem chatLimits_invariant_all_setters_witness :
    limitsInvariant (initialChatLimits 3)
    ∧ limitsInvariant (updateChatLimits 0 3 sampleAuth).chatLimits
    ∧ limitsInvariant
        (fetchUserStatus 3 (HttpResult.error 401) sampleAuth).chatLimits := by
  have h := chatLimits_invariant_all_setters 3 (by decide)
  exact ⟨h.1, h.2.2.2.2.1 0 3 sampleAuth,
    h.2.2.1 (HttpResult.error 401) sampleAuth (by decide)⟩

/-- C2 counterexample: the backend supplies `chat_count = 5` (and
`used = 5`), yet `checkChatLimits` stores `used = FREE_CHAT_LIMIT -
remaining_chats = 3 - 1 = 2`, not the supplied value. -/
theorem checkChatLimits_overwrites_supplied_used :
    ((checkChatLimits 3
        (HttpResult.ok
          { remaining_chats := 1, chat_count := some 5, used := some 5 })
        sampleAuth).2.chatLimits.used = 2)
    ∧ ((checkChatLimits 3
        (HttpResult.ok
          { remaining_chats := 1, chat_count := some 5, used := some 5 })
        sampleAuth).2.chatLimits.used ≠ 5) := by
  constructor <;> decide

/-- C2 amended: with a token present, `checkChatLimits` always stores
`used = FREE_CHAT_LIMIT - remaining_chats`; any backend-supplied
`chat_count`/`used` value is ignored (the stored state does not depend on
those fields). -/
theorem checkChatLimits_used_always_derived (freeLimit : Int)
    (data : LimitsData) (s : AuthState) (t : String)
    (h : s.token = some t) :
    ((checkChatLimits freeLimit (HttpResult.ok data) s).2.chatLimits.used =
      freeLimit - data.remaining_chats)
    ∧ (∀ cc us : Option Int,
        checkChatLimits freeLimit
          (HttpResult.ok { data with chat_count := cc, used := us }) s =
        checkChatLimits freeLimit (HttpResult.ok data) s) := by
  constructor
  · simp [checkChatLimits, h]
  · intro cc us
    simp [checkChatLimits, h]

/-- C2 witness: the amended theorem applied at the sample session. -/
theorem checkChatLimits_used_always_derived_witness :
    (checkChatLimits 3
      (HttpResult.ok { remaining_chats := 1, chat_count := some 5, used := some 5 })
      sampleAuth).2.chatLimits.used = 3 - 1 :=
  (checkChatLimits_used_always_derived 3
    { remaining_chats := 1, chat_count := some 5, used := some 5 }
    sampleAuth "tok" rfl).1

/-- C3 counterexample: a premium user confirms a download of a domain whose
Drive folder link is missing; `handleDownload` alerts and returns before
`trackDownload` is ever reached, so no tracking call is issued. -/
theorem tracking_skipped_when_folder_missing :
    (handleDownload (some noDriveDomain) true "zip" true true).tracked = none
    ∧ (handleDownload (some noDriveDomain) true "zip" true true).alertMsg ≠
        none := by
  constructor <;> decide

/-- C3 amended: with a domain selected, the tracking call
`{domain_id, download_type}` is issued exactly when the open succeeds —
premium entitlement, folder link present, user confirmed, popup not
blocked; in every other outcome (missing link, cancelled confirmation,
blocked popup, non-premium redirect) no tracking call is made. -/
theorem tracking_fired_iff_open_succeeds (sel : Option Domain)
    (isPremium : Bool) (ty : String) (confirmed popupOk : Bool) :
    (handleDownload sel isPremium ty confirmed popupOk).tracked =
      match sel with
      | none => none
      | some d =>
        if isPremium && !jsFalsyStr d.gdrive_folder_id && confirmed && popupOk
        then some (d.id, ty) else none := by
  cases sel with
  | none => rfl
  | some d =>
    cases isPremium with
    | false => simp [handleDownload, noDownloadEffect]
    | true =>
      by_cases hf : jsFalsyStr d.gdrive_folder_id <;>
        cases confirmed <;> cases popupOk <;>
          simp [handleDownload, noDownloadEffect, hf]

/-- C4: a domain click with `remaining == -1` opens the download
confirmation and never the upgrade prompt, and the confirmation modal is
rendered; a click with `remaining != -1` opens the upgrade prompt and the
confirmation modal is never rendered. -/
theorem domainClick_premium_gating (c : ChatLimits) (d : Domain)
    (sel0 : Option Domain) (open0 : Bool) :
    (c.remaining = -1 →
      (handleDomainClick (isPremiumOf (some c)) d sel0 open0).downloadModalOpen
          = true
      ∧ (handleDomainClick (isPremiumOf (some c)) d sel0 open0).upgradeOpened
          = false
      ∧ downloadModalRendered
          (handleDomainClick (isPremiumOf (some c)) d sel0 open0).downloadModalOpen
          (handleDomainClick (isPremiumOf (some c)) d sel0 open0).selectedDomain
          (isPremiumOf (some c)) = true)
    ∧ (c.remaining ≠ -1 →
      (handleDomainClick (isPremiumOf (some c)) d sel0 open0).upgradeOpened
          = true
      ∧ (handleDomainClick (isPremiumOf (some c)) d sel0 open0).downloadModalOpen
          = open0
      ∧ downloadModalRendered
          (handleDomainClick (isPremiumOf (some c)) d sel0 open0).downloadModalOpen
          (handleDomainClick (isPremiumOf (some c)) d sel0 open0).selectedDomain
          (isPremiumOf (some c)) = false) := by
  constructor
  · intro h
    have hp : isPremiumOf (some c) = true := by simp [isPremiumOf, h]
    simp [handleDomainClick, hp, downloadModalRendered]
  · intro h
    have hp : isPremiumOf (some c) = false := by simp [isPremiumOf, h]
    simp [handleDomainClick, hp, downloadModalRendered]

/-- C4 witness: the gating theorem applied at `remaining = -1` and at
`remaining = 0`. -/
theorem domainClick_premium_gating_witness :
    (handleDomainClick
      (isPremiumOf (some { remaining := -1, used := 0, canChat := true }))
      roadNetwork none false).downloadModalOpen = true
    ∧ (handleDomainClick
      (isPremiumOf (some { remaining := 0, used := 3, canChat := false }))
      roadNetwork none false).upgradeOpened = true :=
  ⟨((domainClick_premium_gating
      { remaining := -1, used := 0, canChat := true }
      roadNetwork none false).1 (by decide)).1,
   ((domainClick_premium_gating
      { remaining := 0, used := 3, canChat := false }
      roadNetwork none false).2 (by decide)).1⟩

/-- C5: `filterDomains` equals one pure filter keeping exactly the entries
whose category matches (every category matching under `"All"`) and whose
name or description contains the term case-insensitively; membership
characterization; and on the spec's two-entry catalog,
`filter("road", "All")` returns only the Road Network entry. -/
theorem filterDomains_spec :
    (∀ (L : List Domain) (t c : String),
      filterDomains L t c =
        L.filter (fun d => (c == "All" || d.category == c) && matchesSearch t d))
    ∧ (∀ (L : List Domain) (t c : String) (d : Domain),
        d ∈ filterDomains L t c ↔
          d ∈ L ∧ (c = "All" ∨ d.category = c) ∧ matchesSearch t d = true)
    ∧ filterDomains [healthCensus, roadNetwork] "road" "All" = [roadNetwork] := by
  refine ⟨filterDomains_eq, ?_, by decide⟩
  intro L t c d
  rw [filterDomains_eq, List.mem_filter]
  simp [beq_iff_eq]

/-- C6: filtering is idempotent — applying `filterDomains` to its own
output with the same term and category returns that output unchanged. -/
theorem filterDomains_idempotent (L : List Domain) (t c : String) :
    filterDomains (filterDomains L t c) t c = filterDomains L t c := by
  simp only [filterDomains_eq]
  rw [List.filter_filter]
  apply List.filter_congr
  intro d _
  cases h : ((c == "All" || d.category == c) && matchesSearch t d) <;> simp [h]

/-- C7: when the verification body's status is not success (or the call
throws), the handler shows a support-contact alert containing the payment
identifier and does not invoke the caller-supplied refresh nor close the
flow; when verification returns success, the refresh (when supplied) is
invoked and the flow is closed. -/
theorem paymentHandler_verification (hasCallback : Bool)
    (resp : PaymentResponse) (v : VerifyData) :
    (v.status ≠ some "success" →
      (paymentHandler hasCallback resp (Except.ok v)).alertMsg =
          some (supportMsg resp.razorpay_payment_id)
      ∧ strIncludes (supportMsg resp.razorpay_payment_id)
          resp.razorpay_payment_id = true
      ∧ (paymentHandler hasCallback resp (Except.ok v)).refreshInvoked = false
      ∧ (paymentHandler hasCallback resp (Except.ok v)).closed = false)
    ∧ (v.status = some "success" →
      (paymentHandler true resp (Except.ok v)).refreshInvoked = true
      ∧ (paymentHandler true resp (Except.ok v)).closed = true)
    ∧ ((paymentHandler hasCallback resp (Except.error ())).alertMsg =
          some (supportMsg resp.razorpay_payment_id)
      ∧ (paymentHandler hasCallback resp (Except.error ())).refreshInvoked =
          false) := by
  refine ⟨?_, ?_, ?_⟩
  · intro h
    have hb : (v.status == some "success") = false := by
      simpa [beq_iff_eq] using h
    refine ⟨?_, ?_, ?_, ?_⟩ <;>
      simp [paymentHandler, hb, supportMsg, strIncludes_append_right]
  · intro h
    have hb : (v.status == some "success") = true := by
      simpa [beq_iff_eq] using h
    exact ⟨by simp [paymentHandler, hb], by simp [paymentHandler, hb]⟩
  · exact ⟨rfl, rfl⟩

/-- C7 witness: the handler theorem applied to the sample payment with a
failed and with a successful verification body. -/
theorem paymentHandler_verification_witness :
    (paymentHandler true samplePayment
      (Except.ok { status := some "failed" })).refreshInvoked = false
    ∧ (paymentHandler true samplePayment
      (Except.ok { status := some "success" })).closed = true :=
  ⟨((paymentHandler_verification true samplePayment
      { status := some "failed" }).1 (by decide)).2.2.1,
   ((paymentHandler_verification true samplePayment
      { status := some "success" }).2.1 rfl).2⟩

/-- C8 counterexample: a non-ok, non-401 response (HTTP 500) at an
authenticated session leaves the state completely unchanged — neither a
forced logout nor a replacement of `chatLimits`/profile happens, contrary
to the claim's "on 401 logout, otherwise replace". -/
theorem fetchUserStatus_500_changes_nothing :
    fetchUserStatus 3 (HttpResult.error 500) sampleAuth = sampleAuth
    ∧ (fetchUserStatus 3 (HttpResult.error 500) sampleAuth).isAuthenticated
        = true := by
  constructor <;> decide

/-- C8 amended: called with a stored token, `fetchUserStatus` forces logout
(clearing the in-memory state and both storage entries) exactly on a 401;
on an ok response it replaces `chatLimits` with the server-derived snapshot
and the profile when the response carries one; any other non-ok status or a
network error leaves the state unchanged. -/
theorem fetchUserStatus_behavior (freeLimit : Int) (s : AuthState)
    (t : String) (h : s.token = some t) :
    (fetchUserStatus freeLimit (HttpResult.error 401) s = logout freeLimit s
      ∧ (logout freeLimit s).token = none
      ∧ (logout freeLimit s).isAuthenticated = false
      ∧ (logout freeLimit s).storedToken = none
      ∧ (logout freeLimit s).storedUser = none)
    ∧ (∀ data : StatusData,
        (fetchUserStatus freeLimit (HttpResult.ok data) s).chatLimits =
          { remaining :=
              (data.remaining_chats.orElse (fun _ => data.remaining)).getD (-1)
            used := (data.chat_count.orElse (fun _ => data.used)).getD 0
            canChat := canChatOf
              ((data.remaining_chats.orElse (fun _ => data.remaining)).getD (-1)) }
        ∧ ∀ u : UserInfo, data.user = some u →
            (fetchUserStatus freeLimit (HttpResult.ok data) s).user = some u
            ∧ (fetchUserStatus freeLimit (HttpResult.ok data) s).storedUser
                = some u)
    ∧ (∀ status : Nat, status ≠ 401 →
        fetchUserStatus freeLimit (HttpResult.error status) s = s)
    ∧ fetchUserStatus freeLimit HttpResult.netError s = s := by
  refine ⟨⟨by simp [fetchUserStatus, h], rfl, rfl, rfl, rfl⟩, ?_, ?_, ?_⟩
  · intro data
    constructor
    · cases hu : data.user <;> simp [fetchUserStatus, h, hu]
    · intro u hu
      simp [fetchUserStatus, h, hu]
  · intro status hst
    have hb : (status == 401) = false := by simpa [beq_iff_eq] using hst
    simp [fetchUserStatus, h, hb]
  · simp [fetchUserStatus, h]

/-- C8 witness: the amended theorem applied at the sample session, a 500
response and a 401 response. -/
theorem fetchUserStatus_behavior_witness :
    fetchUserStatus 3 (HttpResult.error 500) sampleAuth = sampleAuth
    ∧ fetchUserStatus 3 (HttpResult.error 401) sampleAuth = logout 3 sampleAuth :=
  ⟨(fetchUserStatus_behavior 3 sampleAuth "tok" rfl).2.2.1 500 (by decide),
   ((fetchUserStatus_behavior 3 sampleAuth "tok" rfl).1).1⟩

/-- C9: when `fetchDomains` fails — any non-ok status or a network error —
the previously loaded catalog, category list and filtered list are left
unchanged and no user-facing alert is emitted (the failure is only
logged); only the loading flag is cleared. -/
theorem fetchDomains_stale_on_error :
    (∀ (status : Nat) (s : LibraryState),
      (fetchDomains (HttpResult.error status) s).1.domains = s.domains
      ∧ (fetchDomains (HttpResult.error status) s).1.categories = s.categories
      ∧ (fetchDomains (HttpResult.error status) s).1.filteredDomains
          = s.filteredDomains
      ∧ (fetchDomains (HttpResult.error status) s).2 = none)
    ∧ (∀ s : LibraryState,
      (fetchDomains HttpResult.netError s).1.domains = s.domains
      ∧ (fetchDomains HttpResult.netError s).1.categories = s.categories
      ∧ (fetchDomains HttpResult.netError s).1.filteredDomains
          = s.filteredDomains
      ∧ (fetchDomains HttpResult.netError s).2 = none) :=
  ⟨fun _ _ => ⟨rfl, rfl, rfl, rfl⟩, fun _ => ⟨rfl, rfl, rfl, rfl⟩⟩

/-- C10: `checkChatLimits` never forces logout — every failure (any non-ok
status, 401 included, or a thrown network error) returns `false` with the
session state unchanged, and even an ok response never touches the token,
profile, authentication flag or storage entries; only an ok response
mutates `chatLimits`. -/
theorem checkChatLimits_failures_safe :
    (∀ (freeLimit : Int) (status : Nat) (s : AuthState),
      checkChatLimits freeLimit (HttpResult.error status) s = (false, s))
    ∧ (∀ (freeLimit : Int) (s : AuthState),
      checkChatLimits freeLimit HttpResult.netError s = (false, s))
    ∧ (∀ (freeLimit : Int) (resp : HttpResult LimitsData) (s : AuthState),
      (checkChatLimits freeLimit resp s).2.token = s.token
      ∧ (checkChatLimits freeLimit resp s).2.user = s.user
      ∧ (checkChatLimits freeLimit resp s).2.isAuthenticated
          = s.isAuthenticated
      ∧ (checkChatLimits freeLimit resp s).2.storedToken = s.storedToken
      ∧ (checkChatLimits freeLimit resp s).2.storedUser = s.storedUser) := by
  refine ⟨?_, ?_, ?_⟩
  · intro freeLimit status s
    cases htok : s.token <;> simp [checkChatLimits, htok]
  · intro freeLimit s
    cases htok : s.token <;> simp [checkChatLimits, htok]
  · intro freeLimit resp s
    cases htok : s.token with
    | none => simp [checkChatLimits, htok]
    | some t => cases resp <;> simp [checkChatLimits, htok]
